import Mathlib

set_option maxRecDepth 100000
set_option maxHeartbeats 1000000

/-!
Verification of the temporal-calibration core (cross-correlation time aligner)
of the Kimera-VIO repository.

The repository sources available here are `src/tests/testTemporalCalibration.cpp`
(the unit tests of the aligner, including the synthetic data generators
`generateSignal` / `makeTestData`) and an unrelated dataset-loader header.
The aligner implementation itself (`CrossCorrTimeAligner` / `TimeAlignerBase`)
is not among the sources, so it is modelled from the specification, with the
behaviour pinned down by the expectations of the in-repository tests.
All real-valued quantities are modelled exactly over `Q`, a kernel-computable
rational type defined below; timestamps are `ℤ` nanoseconds as in the source.
-/

namespace TemporalCalibration

/-- Exact rational numbers with the numerator and a positive denominator kept
in lowest terms by the smart constructor `Q.mk'`, so that every arithmetic
operation evaluates by kernel reduction (the built-in `Rat` operations do
not). Two well-formed values are equal as rationals iff they are equal
field-wise. -/
structure Q where
  num : ℤ
  den : ℤ
deriving DecidableEq, Repr

/-- Normalize a fraction `n / d`: zero denominator maps to 0, the sign moves
to the numerator, and both parts are divided by their gcd. The result always
has a positive denominator and is in lowest terms. -/
def Q.mk' (n d : ℤ) : Q :=
  if d = 0 then ⟨0, 1⟩
  else
    let na := n.natAbs
    let da := d.natAbs
    let g := na.gcd da
    let nn : ℤ := ((na / g : ℕ) : ℤ)
    let dd : ℤ := ((da / g : ℕ) : ℤ)
    if (0 ≤ n ∧ 0 ≤ d) ∨ (n < 0 ∧ d < 0) then ⟨nn, dd⟩ else ⟨-nn, dd⟩

instance : OfNat Q n :=
  ⟨⟨(n : ℕ), 1⟩⟩

/-- Embed an integer. -/
def Q.ofInt (n : ℤ) : Q :=
  ⟨n, 1⟩

/-- Embed a natural number. -/
def Q.ofNat (n : ℕ) : Q :=
  ⟨(n : ℤ), 1⟩

instance : Add Q :=
  ⟨fun a b => Q.mk' (a.num * b.den + b.num * a.den) (a.den * b.den)⟩

instance : Sub Q :=
  ⟨fun a b => Q.mk' (a.num * b.den - b.num * a.den) (a.den * b.den)⟩

instance : Neg Q :=
  ⟨fun a => ⟨-a.num, a.den⟩⟩

instance : Mul Q :=
  ⟨fun a b => Q.mk' (a.num * b.num) (a.den * b.den)⟩

instance : Div Q :=
  ⟨fun a b => Q.mk' (a.num * b.den) (a.den * b.num)⟩

/-- Absolute value of a well-formed rational. -/
def Q.abs (a : Q) : Q :=
  ⟨(a.num.natAbs : ℤ), a.den⟩

instance : LT Q :=
  ⟨fun a b => a.num * b.den < b.num * a.den⟩

instance : LE Q :=
  ⟨fun a b => a.num * b.den ≤ b.num * a.den⟩

instance (a b : Q) : Decidable (a < b) :=
  inferInstanceAs (Decidable (a.num * b.den < b.num * a.den))

instance (a b : Q) : Decidable (a ≤ b) :=
  inferInstanceAs (Decidable (a.num * b.den ≤ b.num * a.den))

/-- Sum of a list of rationals. -/
def Q.sum (xs : List Q) : Q :=
  List.foldl (fun acc x => acc + x) 0 xs

/-- Floor of a well-formed rational (positive denominator). -/
def Q.floor (a : Q) : ℤ :=
  Int.fdiv a.num a.den

/-- Tracker status enum, the closed set from `Tracker-definitions.h` used by
`testTemporalCalibration.cpp` (`TrackingStatus::VALID`, `LOW_DISPARITY`,
`FEW_MATCHES`, `INVALID`, `DISABLED`). -/
inductive TrackingStatus where
  | VALID
  | LOW_DISPARITY
  | FEW_MATCHES
  | INVALID
  | DISABLED
deriving DecidableEq, Repr

/-- Modelled from the spec: the four configuration options of §4.3.1, named as
the `ImuParams` fields set by `makeTestData` in the test source
(`gyro_noise_density_`, `do_imu_rate_time_alignment_`,
`time_alignment_window_size_`, `nominal_sampling_time_s_`). -/
structure ImuParams where
  gyro_noise_density : Q
  do_imu_rate_time_alignment : Bool
  time_alignment_window_size : ℕ
  nominal_sampling_time_s : Q
deriving DecidableEq, Repr

/-- A ring-buffer entry: `(timestamp_ns, value)` where the value is a rotation
magnitude (radians) or an angular-rate magnitude (rad/s). Spec §3. -/
structure BufferEntry where
  ts : ℤ
  value : Q
deriving DecidableEq, Repr

/-- Modelled from the spec: §4.1 RingBuffer, a fixed-capacity FIFO sequence;
`push` evicts the oldest entry when full. The list holds entries oldest
first. -/
structure RingBuffer where
  capacity : ℕ
  data : List BufferEntry
deriving DecidableEq, Repr

/-- Push an entry, evicting the oldest entries beyond capacity (spec §4.1). -/
def RingBuffer.push (b : RingBuffer) (e : BufferEntry) : RingBuffer :=
  let d := b.data ++ [e]
  ⟨b.capacity, d.drop (d.length - b.capacity)⟩

/-- Number of stored entries (spec §4.1 `size()`). -/
def RingBuffer.size (b : RingBuffer) : ℕ :=
  b.data.length

/-- Whether the buffer has reached its capacity (spec §4.1 `full()`). -/
def RingBuffer.full (b : RingBuffer) : Bool :=
  decide (b.capacity ≤ b.data.length)

/-- Contents as a contiguous value array in insertion order, used by the
correlator (spec §4.1 `values_copy()`). -/
def RingBuffer.values_copy (b : RingBuffer) : List Q :=
  b.data.map (fun e => e.value)

/-- One inertial sample: an int64 nanosecond timestamp and the gyroscope
reading. The test data only ever populates one gyroscope row
(`values(3, k)` in `makeTestData`), so the 3-vector is modelled by that
scalar; the per-sample angular-rate magnitude `‖gyro‖` is `|gyro|`. -/
structure ImuSample where
  ts : ℤ
  gyro : Q
deriving DecidableEq, Repr

/-- A frame reference as retained by the aligner: the index of the call that
supplied it (provenance: frames supplied at different calls are distinct
objects) and its timestamp in nanoseconds. -/
structure FrameRef where
  idx : ℕ
  ts : ℤ
deriving DecidableEq, Repr

/-- The emitted result, spec §6: `Result { valid, imu_time_shift }` with the
shift in seconds. -/
structure Result where
  valid : Bool
  imu_time_shift : Q
deriving DecidableEq, Repr

/-- Modelled from the spec: the mutable state of the aligner (§3 lifecycle,
§4.3.3 state machine). `done`/`doneShift` realise the terminal DONE state
holding the already-emitted shift; `prevFrame` is the cached previous frame
(cleared on entering DONE); `prevVisionMag` is the rotation magnitude buffered
for the previous frame, used for interpolation in inertial-rate mode;
`callCount` counts calls, tagging frames for provenance. -/
structure AlignerState where
  done : Bool
  doneShift : Q
  prevFrame : Option FrameRef
  prevVisionMag : Q
  visionBuffer : RingBuffer
  imuBuffer : RingBuffer
  callCount : ℕ
deriving DecidableEq, Repr

/-- Everything one call produces: the emitted result, the successor state, the
relative-rotation query made to the tracker (the pair of frames passed, or
`none` when the tracker was not consulted), and the number of entries pushed
into each ring buffer during the call. -/
structure StepOut where
  result : Result
  state : AlignerState
  query : Option (FrameRef × FrameRef)
  pushedImu : ℕ
  pushedVision : ℕ
deriving DecidableEq, Repr

/-- Unnormalized linear cross-correlation at one lag, spec §4.2:
`C(ℓ) = Σ_{k ∈ K(ℓ)} a[k]·b[k-ℓ]` where `K(ℓ)` is the set of indices at which
both samples are defined (truncation, no zero padding). -/
def corrAt (a b : List Q) (lag : ℤ) : Q :=
  if 0 ≤ lag then
    Q.sum (List.zipWith (fun x y => x * y) (a.drop lag.toNat) b)
  else
    Q.sum (List.zipWith (fun x y => x * y) a (b.drop (-lag).toNat))

/-- Lag candidates `[-(n-1), n-1]` listed in preference order for the spec §4.2
tie-break: smallest absolute value first and, at equal absolute value, the
negative lag before the positive one: `0, -1, 1, -2, 2, …`. -/
def lagOrder (n : ℕ) : List ℤ :=
  List.foldl
    (fun acc i => if i = 0 then [(0 : ℤ)] else acc ++ [-(i : ℤ), (i : ℤ)])
    [] (List.range n)

/-- Modelled from the spec: §4.2 CrossCorrelator. Returns the integer lag in
`[-(N-1), N-1]` maximizing `corrAt a b`; ties go to the smallest absolute lag
and then to the most negative lag (the fold keeps the earlier candidate of
`lagOrder` unless a strictly larger correlation appears). -/
def bestLag (a b : List Q) : ℤ :=
  match lagOrder a.length with
  | [] => 0
  | l :: rest =>
    (List.foldl
      (fun acc l2 =>
        let c := corrAt a b l2
        if acc.2 < c then (l2, c) else acc)
      (l, corrAt a b l) rest).1

/-- Sample variance of a list of values: mean squared deviation from the mean
(spec §4.3.2 step 5). Empty input gives 0. -/
def sampleVariance (xs : List Q) : Q :=
  if xs.length = 0 then 0
  else
    let n := Q.ofNat xs.length
    let mean := Q.sum xs / n
    (List.foldl (fun acc x => acc + (x - mean) * (x - mean)) 0 xs) / n

/-- Variance gate threshold `(3σ)²` with `σ = gyro_noise_density / √Δt`
(spec §4.3.2 step 5), computed exactly: `(3σ)² = 9·gyro_noise_density²/Δt`. -/
def varianceThreshold (p : ImuParams) : Q :=
  9 * p.gyro_noise_density * p.gyro_noise_density / p.nominal_sampling_time_s

/-- Linear interpolation of the vision rotation magnitude at fraction
`(t_k - t_prev)/(t_curr - t_prev)` between the previous and current frame's
magnitudes (spec §4.3.2 step 3, inertial-rate mode). -/
def interpVision (prevMag currMag : Q) (tPrev tCurr tk : ℤ) : Q :=
  if tCurr = tPrev then prevMag
  else prevMag + (Q.ofInt (tk - tPrev) / Q.ofInt (tCurr - tPrev)) * (currMag - prevMag)

/-- Integrated rotation of an inertial batch: `Σ |gyro_k| · (t_k - t_{k-1})`
over consecutive samples (spec §4.3.2 step 3, frame-rate mode). The result is
in rad/s·ns; the caller divides by the elapsed nanoseconds, so the time unit
cancels. -/
def integrateGyro : List ImuSample → Q
  | [] => 0
  | [_] => 0
  | s1 :: s2 :: rest => Q.abs s2.gyro * Q.ofInt (s2.ts - s1.ts) + integrateGyro (s2 :: rest)

/-- Frame-rate reduction of an inertial batch to a single scalar: the
time-normalized mean inertial magnitude over the interval, i.e. integrated
rotation divided by elapsed time (spec §4.3.2 step 3, frame-rate mode).
Degenerate batches (fewer than two samples) reduce to 0. -/
def reduceFrameRate (samples : List ImuSample) : Q :=
  match samples with
  | [] => 0
  | first :: _ =>
    let last := samples.getLastD first
    integrateGyro samples / Q.ofInt (last.ts - first.ts)

/-- Mean frame period in seconds computed from the vision buffer's nanosecond
timestamps (spec §4.3.2 step 6, frame-rate mode): the mean of consecutive
timestamp differences, converted at 1e-9 s/ns. -/
def meanPeriodSeconds (b : RingBuffer) : Q :=
  match b.data with
  | [] => 0
  | first :: _ =>
    if b.data.length ≤ 1 then 0
    else
      let last := b.data.getLastD first
      (Q.ofInt (last.ts - first.ts) / Q.ofNat (b.data.length - 1)) / 1000000000

/-- Modelled from the spec: §4.3.2 step 3, the inertial ingestion of one call.
In inertial-rate mode, push one `(t_k, |gyro_k|)` inertial entry and one
matched interpolated-vision entry per retained sample of the batch; the first
sample, coincident with the previous frame, is skipped unless the inertial
buffer is still empty (the "extra IMU measurement at the start" that
`temporalCalibration.testWellFormedNoDelay` compensates for by enlarging the
window by one). In frame-rate mode, push exactly one paired sample: the
current frame's vision magnitude and the reduced inertial magnitude of the
batch. Returns the two updated buffers and the number of entries pushed into
each. -/
def ingestBatch (p : ImuParams) (st : AlignerState) (m : Q) (prevTs frameTs : ℤ)
    (batch : List ImuSample) : RingBuffer × RingBuffer × ℕ :=
  if p.do_imu_rate_time_alignment then
    let start := if st.imuBuffer.data.isEmpty then 0 else 1
    let samples := batch.drop start
    let bufs := List.foldl
      (fun (bufs : RingBuffer × RingBuffer) (s : ImuSample) =>
        (bufs.1.push ⟨s.ts, Q.abs s.gyro⟩,
         bufs.2.push ⟨s.ts, interpVision st.prevVisionMag m prevTs frameTs s.ts⟩))
      (st.imuBuffer, st.visionBuffer) samples
    (bufs.1, bufs.2, samples.length)
  else
    (st.imuBuffer.push ⟨frameTs, reduceFrameRate batch⟩,
     st.visionBuffer.push ⟨frameTs, m⟩, 1)

/-- Modelled from the spec: one call of `estimate_time_alignment`
(§2 control flow, §4.3.2 contract), covering the code of the absent
`TimeAlignerBase::estimateTimeAlignment` / `CrossCorrTimeAligner`.
Inputs are the tracker verdict together with the angular magnitude
`‖log(R_rel)‖` of the relative rotation the tracker reports (spec §6), the
current frame's timestamp, and the inertial batch for the interval since the
previous frame.
Order of the stages:
1. a DONE aligner returns the already-emitted shift with no side effects
   (§4.3.3);
2. `DISABLED` short-circuits to `{true, 0}` and enters DONE, even on the first
   invocation (§4.3.2 step 2, §8);
3. with no stored previous frame, the frame is cached and the batch discarded,
   returning `{false, 0}` (§4.3.2 step 1);
4. `INVALID` returns `{true, 0}` with the buffers untouched and restarts the
   rotation chain from the current frame (§4.3.2 step 2; the stored previous
   frame is replaced by the current one, as required by the tracker-query
   expectations of `temporalCalibration.testBadRansacStatus`);
5. an empty inertial batch returns `{true, 0}` without buffering (§4.3.2
   step 3);
6. otherwise the batch is ingested at the configured rate, the window and
   variance gates are applied, and a full window with sufficient variance is
   cross-correlated, entering DONE with the discrete lag converted to seconds
   (§4.3.2 steps 3-6).
In inertial-rate mode the first sample of a batch is skipped as coincident
with the previous frame, except that the very first batch (empty inertial
buffer) contributes all of its samples — this is the "extra IMU measurement at
the start" that `temporalCalibration.testWellFormedNoDelay` compensates for by
enlarging the window by one. -/
def estimateTimeAlignment (p : ImuParams) (st : AlignerState)
    (verdict : TrackingStatus) (mag : Q) (frameTs : ℤ)
    (batch : List ImuSample) : StepOut :=
  let curr : FrameRef := ⟨st.callCount, frameTs⟩
  if st.done then
    ⟨⟨true, st.doneShift⟩, st, none, 0, 0⟩
  else
    let query := st.prevFrame.map (fun fr => (fr, curr))
    let st0 := { st with callCount := st.callCount + 1 }
    if verdict = TrackingStatus.DISABLED then
      ⟨⟨true, 0⟩,
        { st0 with done := true, doneShift := 0, prevFrame := none },
        query, 0, 0⟩
    else
      match st.prevFrame with
      | none =>
        ⟨⟨false, 0⟩,
          { st0 with prevFrame := some curr, prevVisionMag := 0 },
          none, 0, 0⟩
      | some prev =>
        if verdict = TrackingStatus.INVALID then
          ⟨⟨true, 0⟩,
            { st0 with prevFrame := some curr, prevVisionMag := 0 },
            query, 0, 0⟩
        else
          let m := if verdict = TrackingStatus.VALID then mag else 0
          if batch.isEmpty then
            ⟨⟨true, 0⟩,
              { st0 with prevFrame := some curr, prevVisionMag := m },
              query, 0, 0⟩
          else
            let ingest := ingestBatch p st m prev.ts frameTs batch
            let ibuf := ingest.1
            let vbuf := ingest.2.1
            let nPush := ingest.2.2
            let st1 := { st0 with prevFrame := some curr, prevVisionMag := m,
                                  imuBuffer := ibuf, visionBuffer := vbuf }
            let gate : Result × AlignerState :=
              if ibuf.full && vbuf.full then
                if sampleVariance ibuf.values_copy < varianceThreshold p then
                  (⟨false, 0⟩, st1)
                else
                  let lag := bestLag vbuf.values_copy ibuf.values_copy
                  let period :=
                    if p.do_imu_rate_time_alignment then p.nominal_sampling_time_s
                    else meanPeriodSeconds vbuf
                  let shift := Q.ofInt lag * period
                  (⟨true, shift⟩,
                   { st1 with done := true, doneShift := shift, prevFrame := none })
              else (⟨false, 0⟩, st1)
            ⟨gate.1, gate.2, query, nPush, nPush⟩

/-- The freshly constructed aligner: empty buffers of the configured capacity,
no previous frame, not DONE (spec §3 lifecycle). -/
def initState (p : ImuParams) : AlignerState :=
  ⟨false, 0, none, 0,
   ⟨p.time_alignment_window_size, []⟩,
   ⟨p.time_alignment_window_size, []⟩,
   0⟩

/-- One host call: the current frame's timestamp and the inertial batch
supplied with it. -/
structure CallInput where
  frameTs : ℤ
  batch : List ImuSample
deriving DecidableEq, Repr

/-- Drive the aligner over a list of calls with a scripted tracker,
mirroring `ReturnHelper` in the test source: the script holds the
`(status, ‖log rotation‖)` responses in order; one response is consumed per
tracker query (a query happens exactly when the aligner holds a previous
frame and is not DONE), and an exhausted script answers
`(INVALID, identity)`. On a call that performs no query the head of the
script stands in for the verdict argument without being consumed.
Returns the pre-call state paired with the step output, per call. -/
def runTrace (p : ImuParams) :
    AlignerState → List (TrackingStatus × Q) → List CallInput →
    List (AlignerState × StepOut)
  | _, _, [] => []
  | st, script, c :: rest =>
    let queried := !st.done && st.prevFrame.isSome
    let resp := script.headD (TrackingStatus.INVALID, 0)
    let script2 := if queried then script.tail else script
    let out := estimateTimeAlignment p st resp.1 resp.2 c.frameTs c.batch
    (st, out) :: runTrace p out.state script2 rest

/-- The emitted results of a scripted run. -/
def runResults (p : ImuParams) (st : AlignerState)
    (script : List (TrackingStatus × Q)) (calls : List CallInput) : List Result :=
  (runTrace p st script calls).map (fun pr => pr.2.result)

/-- The state after a scripted run. -/
def runFinalState (p : ImuParams) (st : AlignerState)
    (script : List (TrackingStatus × Q)) (calls : List CallInput) : AlignerState :=
  ((runTrace p st script calls).getLastD (st, ⟨⟨false, 0⟩, st, none, 0, 0⟩)).2.state

/-- Triangular rotation profile of `generateSignal`
(testTemporalCalibration.cpp:144-151): the image rotation angle at frame `i`
(1-based) is `scale·i` on the rising half (`i ≤ num_frames/2`, integer
division) and `scale·(num_frames - i)` on the falling half. `i = 0` gives the
initial angle 0 (`prev_angle` before the loop). -/
def triangleAngle (num_frames : ℕ) (scale : Q) (i : ℕ) : Q :=
  if i = 0 then 0
  else if i ≤ num_frames / 2 then scale * Q.ofNat i
  else scale * (Q.ofNat num_frames - Q.ofNat i)

/-- The inertial angle sequence of `generateSignal`
(testTemporalCalibration.cpp:128-176). All inertial timestamps are
consecutive integers starting at 0 (each `push_back` adds `back() + 1`), so
only the angle sequence needs constructing: a zero prefix (one entry, or
`|num_delay|` entries when the delay is negative), then for each frame
`i = 1..num_frames` and each `k = 1..num_imu_per` the interpolated angle
`(k/num_imu_per · (angle_i − angle_{i−1}) + angle_{i−1}) / imu_period_s`,
then `num_delay` zeros when the delay is positive. -/
def generatedImuAngles (num_frames num_imu_per : ℕ) (num_delay : ℤ)
    (scale imu_period_s : Q) : List Q :=
  let prefixLen := if num_delay < 0 then num_delay.natAbs else 1
  let suffixLen := if 0 < num_delay then num_delay.toNat else 0
  let core := (List.range (num_frames * num_imu_per)).map (fun mIdx =>
    let i := mIdx / num_imu_per + 1
    let k := mIdx % num_imu_per + 1
    let prevAngle := triangleAngle num_frames scale (i - 1)
    let angle := triangleAngle num_frames scale i
    ((Q.ofNat k / Q.ofNat num_imu_per) * (angle - prevAngle) + prevAngle) / imu_period_s)
  List.replicate prefixLen 0 ++ core ++ List.replicate suffixLen 0

/-- The per-frame data assembled by `makeTestData`
(testTemporalCalibration.cpp:178-238): the scripted tracker responses, frame
timestamps, per-call inertial batches, configured parameters and the expected
final delay. Each scripted response is `(VALID, Rz(vision_angles[i]))`; the
angular magnitude of `Rz(a)` is `|a|`. -/
structure TestData where
  params : ImuParams
  results : List (TrackingStatus × Q)
  outputs : List ℤ
  batches : List (List ImuSample)
  expected_delay : Q
deriving Repr

/-- `std::round` (half away from zero) on an exact rational. -/
def cppRound (q : Q) : ℤ :=
  if q < 0 then -((-q + Q.mk' 1 2).floor) else (q + Q.mk' 1 2).floor

/-- Modelled from the source `makeTestData`
(testTemporalCalibration.cpp:178-238): parameters (`gyro_noise_density_ = 0`,
window `num_frames·num_imu_per` at inertial rate or `num_frames` at frame
rate, nominal period 1e-9 s), the expected delay
(`nominal·(num_delay − copysign(1, num_delay))` at inertial rate,
`nominal·num_imu_per·round(num_delay/num_imu_per)` at frame rate), a first
frame at timestamp 0 with a single zero inertial sample (`addFirstFrame`),
the scripted VALID responses carrying the triangular profile, and per-frame
batches of `num_imu_per + 1` samples taken from the generated signal at
offset `num_imu_per·i (+ num_delay if positive)` with timestamps re-based at
`first_imu_time`. -/
def makeTestData (num_frames num_imu_per : ℕ) (rotation_scale : Q)
    (imu_rate : Bool) (num_delay : ℤ) : TestData :=
  let nominal : Q := Q.mk' 1 1000000000
  let params : ImuParams :=
    ⟨0, imu_rate,
     if imu_rate then num_frames * num_imu_per else num_frames,
     nominal⟩
  let expected : Q :=
    if imu_rate then
      nominal * Q.ofInt (num_delay - (if num_delay < 0 then (-1 : ℤ) else 1))
    else
      nominal * Q.ofNat num_imu_per *
        Q.ofInt (cppRound (Q.ofInt num_delay / Q.ofNat num_imu_per))
  let angles := generatedImuAngles num_frames num_imu_per num_delay rotation_scale nominal
  let firstImuTime : ℤ := if 0 < num_delay then num_delay else 0
  let delayOffset : ℕ := if 0 < num_delay then num_delay.toNat else 0
  let batches := (List.range num_frames).map (fun i =>
    let offset := num_imu_per * i + delayOffset
    (List.range (num_imu_per + 1)).map (fun k =>
      (⟨((k + offset : ℕ) : ℤ) - firstImuTime, angles.getD (k + offset) 0⟩ : ImuSample)))
  let visionAngles := (List.range num_frames).map
    (fun j => triangleAngle num_frames rotation_scale (j + 1))
  { params := params
    results := visionAngles.map (fun a => (TrackingStatus.VALID, Q.abs a))
    outputs := 0 :: (List.range num_frames).map
      (fun j => (((j + 1) * num_imu_per : ℕ) : ℤ))
    batches := [(⟨0, 0⟩ : ImuSample)] :: batches
    expected_delay := expected }

/-- The call sequence the well-formed tests drive
(e.g. testTemporalCalibration.cpp:465-476): one call per `(output, batch)`
pair for indices `0..results.size()-1`, then a final call with the last
output and the last batch (`outputs.back()`, `imu_stamps.back()`; the arrays
hold `results.size()+1` entries, so this is the remaining index). -/
def scenarioCalls (d : TestData) : List CallInput :=
  (List.range d.results.length).map
    (fun i => ⟨d.outputs.getD i 0, d.batches.getD i []⟩)
  ++ [⟨d.outputs.getLastD 0, d.batches.getLastD []⟩]

/-- Run one well-formed scenario: build the data with `makeTestData`, widen
the window by `windowBump` (as `testWellFormedNoDelay` does by one), construct
the aligner and drive it over the scenario calls. -/
def scenarioResults (num_imu_per : ℕ) (imu_rate : Bool) (num_delay : ℤ)
    (windowBump : ℕ) : List Result :=
  let d := makeTestData 10 num_imu_per (Q.mk' 1 10) imu_rate num_delay
  let p := { d.params with
             time_alignment_window_size := d.params.time_alignment_window_size + windowBump }
  runResults p (initState p) d.results (scenarioCalls d)

/-- Positivity of a well-formed rational. -/
def Q.isPos (q : Q) : Prop :=
  0 < q.num ∧ 0 < q.den

instance (q : Q) : Decidable (Q.isPos q) :=
  inferInstanceAs (Decidable (0 < q.num ∧ 0 < q.den))

theorem Q.mk'_isPos {n d : ℤ} (hn : 0 < n) (hd : 0 < d) : Q.isPos (Q.mk' n d) := by
  have hd0 : ¬(d = 0) := by omega
  have hcond : (0 ≤ n ∧ 0 ≤ d) ∨ (n < 0 ∧ d < 0) := Or.inl ⟨le_of_lt hn, le_of_lt hd⟩
  have hna : 0 < n.natAbs := Int.natAbs_pos.mpr (by omega)
  have hda : 0 < d.natAbs := Int.natAbs_pos.mpr (by omega)
  have hg : 0 < n.natAbs.gcd d.natAbs := Nat.gcd_pos_of_pos_left _ hna
  have h1 : 0 < n.natAbs / n.natAbs.gcd d.natAbs :=
    Nat.div_pos (Nat.le_of_dvd hna (Nat.gcd_dvd_left _ _)) hg
  have h2 : 0 < d.natAbs / n.natAbs.gcd d.natAbs :=
    Nat.div_pos (Nat.le_of_dvd hda (Nat.gcd_dvd_right _ _)) hg
  unfold Q.mk'
  simp only [hd0, if_false, hcond, if_true, Q.isPos]
  constructor
  · exact_mod_cast h1
  · exact_mod_cast h2

theorem Q.isPos_mul {a b : Q} (ha : Q.isPos a) (hb : Q.isPos b) : Q.isPos (a * b) :=
  Q.mk'_isPos (mul_pos ha.1 hb.1) (mul_pos ha.2 hb.2)

theorem Q.isPos_div {a b : Q} (ha : Q.isPos a) (hb : Q.isPos b) : Q.isPos (a / b) :=
  Q.mk'_isPos (mul_pos ha.1 hb.2) (mul_pos ha.2 hb.1)

theorem Q.zero_lt_of_isPos {a : Q} (ha : Q.isPos a) : (0 : Q) < a := by
  show (0 : Q).num * a.den < a.num * (0 : Q).den
  have h0 : (0 : Q).num = 0 := rfl
  have h1 : (0 : Q).den = 1 := rfl
  rw [h0, h1, zero_mul, mul_one]
  exact ha.1

theorem Q.isPos_ofNines : Q.isPos (9 : Q) := ⟨by decide, by decide⟩

/-- The gate threshold `(3σ)²` is strictly positive when both
`gyro_noise_density` and `nominal_sampling_time_s` are. -/
theorem varianceThreshold_pos {p : ImuParams}
    (hg : Q.isPos p.gyro_noise_density) (hs : Q.isPos p.nominal_sampling_time_s) :
    (0 : Q) < varianceThreshold p :=
  Q.zero_lt_of_isPos (Q.isPos_div (Q.isPos_mul (Q.isPos_mul Q.isPos_ofNines hg) hg) hs)

/-- A DONE aligner returns the already-emitted shift, performs no tracker
query, pushes nothing and leaves its state unchanged (spec §4.3.3). -/
theorem estimate_done_eq (p : ImuParams) (st : AlignerState) (verdict : TrackingStatus)
    (mag : Q) (frameTs : ℤ) (batch : List ImuSample) (h : st.done = true) :
    estimateTimeAlignment p st verdict mag frameTs batch =
      ⟨⟨true, st.doneShift⟩, st, none, 0, 0⟩ := by
  simp [estimateTimeAlignment, h]

/-- A DISABLED verdict on a non-DONE aligner yields `{true, 0}` and the
terminal DONE state with the previous frame cleared (spec §4.3.2 step 2). -/
theorem estimate_disabled_eq (p : ImuParams) (st : AlignerState)
    (mag : Q) (frameTs : ℤ) (batch : List ImuSample) (h : st.done = false) :
    estimateTimeAlignment p st TrackingStatus.DISABLED mag frameTs batch =
      ⟨⟨true, 0⟩,
       { st with callCount := st.callCount + 1, done := true, doneShift := 0,
                 prevFrame := none },
       st.prevFrame.map (fun fr => (fr, ⟨st.callCount, frameTs⟩)), 0, 0⟩ := by
  simp [estimateTimeAlignment, h]

/-- With no stored previous frame and a verdict other than DISABLED, the call
caches the current frame, discards the batch, performs no query and returns
`{false, 0}` (spec §4.3.2 step 1). -/
theorem estimate_initial_eq (p : ImuParams) (st : AlignerState) (verdict : TrackingStatus)
    (mag : Q) (frameTs : ℤ) (batch : List ImuSample)
    (hdone : st.done = false) (hprev : st.prevFrame = none)
    (hv : verdict ≠ TrackingStatus.DISABLED) :
    estimateTimeAlignment p st verdict mag frameTs batch =
      ⟨⟨false, 0⟩,
       { st with callCount := st.callCount + 1,
                 prevFrame := some ⟨st.callCount, frameTs⟩, prevVisionMag := 0 },
       none, 0, 0⟩ := by
  simp [estimateTimeAlignment, hdone, hprev, hv]

/-- An INVALID verdict with a stored previous frame returns `{true, 0}`,
leaves the buffers untouched, stays non-terminal and restarts the rotation
chain from the current frame (spec §4.3.2 step 2 with the tracker-query
expectations of `testBadRansacStatus`). -/
theorem estimate_invalid_eq (p : ImuParams) (st : AlignerState) (prev : FrameRef)
    (mag : Q) (frameTs : ℤ) (batch : List ImuSample)
    (hdone : st.done = false) (hprev : st.prevFrame = some prev) :
    estimateTimeAlignment p st TrackingStatus.INVALID mag frameTs batch =
      ⟨⟨true, 0⟩,
       { st with callCount := st.callCount + 1,
                 prevFrame := some ⟨st.callCount, frameTs⟩, prevVisionMag := 0 },
       some (prev, ⟨st.callCount, frameTs⟩), 0, 0⟩ := by
  simp [estimateTimeAlignment, hdone, hprev]

/-- An empty inertial batch on a processing verdict returns `{true, 0}`
without buffering (spec §4.3.2 step 3). -/
theorem estimate_emptybatch_eq (p : ImuParams) (st : AlignerState) (prev : FrameRef)
    (verdict : TrackingStatus) (mag : Q) (frameTs : ℤ)
    (hdone : st.done = false) (hprev : st.prevFrame = some prev)
    (hv : verdict ≠ TrackingStatus.DISABLED) (hv2 : verdict ≠ TrackingStatus.INVALID) :
    estimateTimeAlignment p st verdict mag frameTs [] =
      ⟨⟨true, 0⟩,
       { st with callCount := st.callCount + 1,
                 prevFrame := some ⟨st.callCount, frameTs⟩,
                 prevVisionMag := if verdict = TrackingStatus.VALID then mag else 0 },
       some (prev, ⟨st.callCount, frameTs⟩), 0, 0⟩ := by
  simp [estimateTimeAlignment, hdone, hprev, hv, hv2]

/-- The processing path of a call: ingestion followed by the window check,
the variance gate and, when both pass, the cross-correlation (spec §4.3.2
steps 3-6), spelled out as one expression. -/
theorem estimate_processing_eq (p : ImuParams) (st : AlignerState) (prev : FrameRef)
    (verdict : TrackingStatus) (mag : Q) (frameTs : ℤ) (batch : List ImuSample)
    (hdone : st.done = false) (hprev : st.prevFrame = some prev)
    (hv : verdict ≠ TrackingStatus.DISABLED) (hv2 : verdict ≠ TrackingStatus.INVALID)
    (hb : batch ≠ []) :
    estimateTimeAlignment p st verdict mag frameTs batch =
      (let m := if verdict = TrackingStatus.VALID then mag else 0
       let ingest := ingestBatch p st m prev.ts frameTs batch
       let st1 : AlignerState :=
         { st with callCount := st.callCount + 1,
                   prevFrame := some ⟨st.callCount, frameTs⟩, prevVisionMag := m,
                   imuBuffer := ingest.1, visionBuffer := ingest.2.1 }
       let gate : Result × AlignerState :=
         if ingest.1.full && ingest.2.1.full then
           if sampleVariance ingest.1.values_copy < varianceThreshold p then
             (⟨false, 0⟩, st1)
           else
             let shift := Q.ofInt (bestLag ingest.2.1.values_copy ingest.1.values_copy) *
               (if p.do_imu_rate_time_alignment then p.nominal_sampling_time_s
                else meanPeriodSeconds ingest.2.1)
             (⟨true, shift⟩,
              { st1 with done := true, doneShift := shift, prevFrame := none })
         else (⟨false, 0⟩, st1)
       (⟨gate.1, gate.2, some (prev, ⟨st.callCount, frameTs⟩), ingest.2.2, ingest.2.2⟩ : StepOut)) := by
  have hbe : batch.isEmpty = false := by
    cases batch with
    | nil => exact absurd rfl hb
    | cons a l => rfl
  simp [estimateTimeAlignment, hdone, hprev, hv, hv2, hbe]

/-- Invariant of reachable aligner states: a DONE aligner holds no previous
frame, and a stored previous frame was supplied at a strictly earlier call
than the next one to arrive. -/
def StateWF (st : AlignerState) : Prop :=
  (st.done = true → st.prevFrame = none) ∧
  (∀ fr, st.prevFrame = some fr → fr.idx < st.callCount)

/-- The fresh aligner satisfies the reachability invariant. -/
theorem stateWF_init (p : ImuParams) : StateWF (initState p) := by
  constructor
  · intro h; rfl
  · intro fr h; simp [initState] at h

/-- Shape of the state after a processing call: either the previous frame
slot holds the current frame and the aligner is not DONE, or the aligner
entered DONE with the slot cleared; the call counter always advances. -/
theorem estimate_processing_state_fields (p : ImuParams) (st : AlignerState)
    (prev : FrameRef) (verdict : TrackingStatus) (mag : Q) (frameTs : ℤ)
    (batch : List ImuSample)
    (hdone : st.done = false) (hprev : st.prevFrame = some prev)
    (hv : verdict ≠ TrackingStatus.DISABLED) (hv2 : verdict ≠ TrackingStatus.INVALID)
    (hb : batch ≠ []) :
    (((estimateTimeAlignment p st verdict mag frameTs batch).state.prevFrame =
        some ⟨st.callCount, frameTs⟩ ∧
      (estimateTimeAlignment p st verdict mag frameTs batch).state.done = false) ∨
     ((estimateTimeAlignment p st verdict mag frameTs batch).state.prevFrame = none ∧
      (estimateTimeAlignment p st verdict mag frameTs batch).state.done = true)) ∧
    (estimateTimeAlignment p st verdict mag frameTs batch).state.callCount =
      st.callCount + 1 := by
  rw [estimate_processing_eq p st prev verdict mag frameTs batch hdone hprev hv hv2 hb]
  simp only []
  split_ifs <;> simp [hdone]

/-- One call preserves the reachability invariant. -/
theorem estimate_wf (p : ImuParams) (st : AlignerState) (verdict : TrackingStatus)
    (mag : Q) (frameTs : ℤ) (batch : List ImuSample) (hwf : StateWF st) :
    StateWF (estimateTimeAlignment p st verdict mag frameTs batch).state := by
  cases hd : st.done with
  | true =>
    rw [estimate_done_eq p st verdict mag frameTs batch hd]
    exact hwf
  | false =>
    by_cases hv : verdict = TrackingStatus.DISABLED
    · subst hv
      rw [estimate_disabled_eq p st mag frameTs batch hd]
      constructor
      · intro _; rfl
      · intro fr h; simp at h
    · cases hp : st.prevFrame with
      | none =>
        rw [estimate_initial_eq p st verdict mag frameTs batch hd hp hv]
        constructor
        · intro h; simp [hd] at h
        · intro fr h
          simp at h
          subst h
          simp
      | some prev =>
        by_cases hv2 : verdict = TrackingStatus.INVALID
        · subst hv2
          rw [estimate_invalid_eq p st prev mag frameTs batch hd hp]
          constructor
          · intro h; simp [hd] at h
          · intro fr h; simp at h; subst h; simp
        · cases hb : batch with
          | nil =>
            rw [estimate_emptybatch_eq p st prev verdict mag frameTs hd hp hv hv2]
            constructor
            · intro h; simp [hd] at h
            · intro fr h; simp at h; subst h; simp
          | cons s rest =>
            have hfields := estimate_processing_state_fields p st prev verdict mag frameTs
              (s :: rest) hd hp hv hv2 (by simp)
            rcases hfields with ⟨⟨hsome, hdone2⟩ | ⟨hnone, _⟩, hcount⟩
            · constructor
              · intro h; rw [hdone2] at h; cases h
              · intro fr h
                rw [hsome] at h
                injection h with h
                subst h
                rw [hcount]
                exact Nat.lt_succ_self _
            · constructor
              · intro _; exact hnone
              · intro fr h; rw [hnone] at h; cases h

/-- On an invariant-satisfying state, a call queries the tracker exactly when
a previous frame is stored, and the queried pair is the stored previous frame
together with the current frame, tagged with a strictly larger call index. -/
theorem estimate_query_spec (p : ImuParams) (st : AlignerState) (verdict : TrackingStatus)
    (mag : Q) (frameTs : ℤ) (batch : List ImuSample) (hwf : StateWF st) :
    ((estimateTimeAlignment p st verdict mag frameTs batch).query.isSome ↔
      st.prevFrame.isSome) ∧
    (∀ a c, (estimateTimeAlignment p st verdict mag frameTs batch).query = some (a, c) →
      st.prevFrame = some a ∧ a.idx < c.idx) := by
  cases hd : st.done with
  | true =>
    have hnone := hwf.1 hd
    rw [estimate_done_eq p st verdict mag frameTs batch hd]
    simp [hnone]
  | false =>
    by_cases hv : verdict = TrackingStatus.DISABLED
    · subst hv
      rw [estimate_disabled_eq p st mag frameTs batch hd]
      cases hp : st.prevFrame with
      | none => simp
      | some prev =>
        simp only [hp, Option.map_some, Option.isSome_some, Option.isSome, StepOut.query]
        constructor
        · simp
        · intro a c h
          simp at h
          obtain ⟨rfl, rfl⟩ := h
          exact ⟨rfl, hwf.2 prev hp⟩
    · cases hp : st.prevFrame with
      | none =>
        rw [estimate_initial_eq p st verdict mag frameTs batch hd hp hv]
        simp
      | some prev =>
        by_cases hv2 : verdict = TrackingStatus.INVALID
        · subst hv2
          rw [estimate_invalid_eq p st prev mag frameTs batch hd hp]
          constructor
          · simp
          · intro a c h
            simp at h
            obtain ⟨rfl, rfl⟩ := h
            exact ⟨rfl, hwf.2 prev hp⟩
        · cases hb : batch with
          | nil =>
            rw [estimate_emptybatch_eq p st prev verdict mag frameTs hd hp hv hv2]
            constructor
            · simp
            · intro a c h
              simp at h
              obtain ⟨rfl, rfl⟩ := h
              exact ⟨rfl, hwf.2 prev hp⟩
          | cons s rest =>
            rw [estimate_processing_eq p st prev verdict mag frameTs (s :: rest) hd hp hv hv2
                (by simp)]
            constructor
            · simp
            · intro a c h
              simp at h
              obtain ⟨rfl, rfl⟩ := h
              exact ⟨rfl, hwf.2 prev hp⟩

/-- Every call of a scripted run from an invariant-satisfying state queries
the tracker exactly when its pre-call state stores a previous frame, with
distinct frames as arguments. -/
theorem runTrace_query_spec (p : ImuParams) (calls : List CallInput) :
    ∀ (script : List (TrackingStatus × Q)) (st : AlignerState), StateWF st →
    ∀ pr ∈ runTrace p st script calls,
      (pr.2.query.isSome ↔ pr.1.prevFrame.isSome) ∧
      (∀ a c, pr.2.query = some (a, c) →
        pr.1.prevFrame = some a ∧ a.idx < c.idx ∧ a ≠ c) := by
  induction calls with
  | nil =>
    intro script st hwf pr hpr
    simp [runTrace] at hpr
  | cons c rest ih =>
    intro script st hwf pr hpr
    rw [runTrace] at hpr
    simp only [List.mem_cons] at hpr
    rcases hpr with rfl | hmem
    · have hq := estimate_query_spec p st (script.headD (TrackingStatus.INVALID, 0)).1
        (script.headD (TrackingStatus.INVALID, 0)).2 c.frameTs c.batch hwf
      refine ⟨hq.1, ?_⟩
      intro a d h
      have := hq.2 a d h
      refine ⟨this.1, this.2, ?_⟩
      intro hac
      rw [hac] at this
      exact absurd this.2 (lt_irrefl _)
    · exact ih _ _ (estimate_wf p st _ _ _ _ hwf) pr hmem

/-- A run from a DONE state emits the stored shift at every call and never
leaves that state. -/
theorem runTrace_done (p : ImuParams) (calls : List CallInput) :
    ∀ (script : List (TrackingStatus × Q)) (st : AlignerState), st.done = true →
    runTrace p st script calls =
      calls.map (fun _ => (st, ⟨⟨true, st.doneShift⟩, st, none, 0, 0⟩)) := by
  induction calls with
  | nil => intro script st _; rfl
  | cons c rest ih =>
    intro script st h
    rw [runTrace]
    rw [estimate_done_eq p st _ _ _ _ h]
    simp only [h, Bool.not_true, Bool.false_and, if_false, List.map_cons]
    exact congrArg _ (ih script st h)

/-- The final state of a run from a DONE state is that same state. -/
theorem runTrace_done_getLast (p : ImuParams) (calls : List CallInput) :
    ∀ (script : List (TrackingStatus × Q)) (st : AlignerState)
      (d : AlignerState × StepOut), st.done = true → d.2.state = st →
    ((runTrace p st script calls).getLastD d).2.state = st := by
  induction calls with
  | nil => intro script st d _ hd; exact hd
  | cons c rest ih =>
    intro script st d h _
    rw [runTrace]
    rw [estimate_done_eq p st _ _ _ _ h]
    simp only [h, Bool.not_true, Bool.false_and, if_false, List.getLastD_cons]
    exact ih script st _ h rfl

/-- Inertial-rate parameters with window 10 and zero noise density, shared by
the concrete scenarios below. -/
def c2Params : ImuParams := ⟨0, true, 10, Q.mk' 1 1000000000⟩

/-- A DONE state reached by a first-call DISABLED verdict. -/
def c2DoneState : AlignerState :=
  (estimateTimeAlignment c2Params (initState c2Params) TrackingStatus.DISABLED 0 0 []).state

/-- C2 (amended): once the aligner has entered the terminal DONE state, every
subsequent call returns `valid=true` with the same shift and leaves the whole
state, ring buffers included, unchanged. The claim as stated ranges over every
`valid=true` result; it fails because INVALID verdicts and empty inertial
batches return `valid=true` without terminating the aligner. -/
theorem claim_C2_amended (p : ImuParams) (calls : List CallInput)
    (script : List (TrackingStatus × Q)) (st : AlignerState) (h : st.done = true) :
    runResults p st script calls = List.replicate calls.length ⟨true, st.doneShift⟩ ∧
    runFinalState p st script calls = st := by
  constructor
  · unfold runResults
    rw [runTrace_done p calls script st h]
    simp [List.map_map]
  · exact runTrace_done_getLast p calls script st _ h rfl

/-- Witness for C2 (amended) at a concrete DONE state and one further call. -/
theorem claim_C2_witness :
    runResults c2Params c2DoneState [] [⟨5, []⟩] = [⟨true, 0⟩] ∧
    runFinalState c2Params c2DoneState [] [⟨5, []⟩] = c2DoneState :=
  claim_C2_amended c2Params [⟨5, []⟩] [] c2DoneState (by decide)

/-- Counterexample to C2 as stated: in a concrete run, the second call (an
INVALID verdict) returns `valid=true` but the third call (a VALID verdict
with an unfilled window) returns `valid=false`. -/
theorem claim_C2_counterexample :
    (runResults c2Params (initState c2Params)
       [(TrackingStatus.INVALID, 0), (TrackingStatus.VALID, Q.mk' 1 10)]
       [⟨0, [⟨0, 0⟩]⟩, ⟨1, [⟨0, 0⟩, ⟨1, 1⟩]⟩, ⟨2, [⟨1, 1⟩, ⟨2, 2⟩]⟩]).getD 1 ⟨false, 0⟩ =
      ⟨true, 0⟩ ∧
    (runResults c2Params (initState c2Params)
       [(TrackingStatus.INVALID, 0), (TrackingStatus.VALID, Q.mk' 1 10)]
       [⟨0, [⟨0, 0⟩]⟩, ⟨1, [⟨0, 0⟩, ⟨1, 1⟩]⟩, ⟨2, [⟨1, 1⟩, ⟨2, 2⟩]⟩]).getD 2 ⟨false, 0⟩ =
      ⟨false, 0⟩ :=
  ⟨by decide, by decide⟩

/-- C3: on a call with no stored previous frame and a tracker status other
than DISABLED, the aligner caches the current frame, discards the supplied
inertial batch without buffering anything, performs no tracker query, and
returns `{valid=false, shift=0}`. -/
theorem claim_C3 (p : ImuParams) (st : AlignerState) (verdict : TrackingStatus)
    (mag : Q) (frameTs : ℤ) (batch : List ImuSample)
    (hdone : st.done = false) (hprev : st.prevFrame = none)
    (hv : verdict ≠ TrackingStatus.DISABLED) :
    estimateTimeAlignment p st verdict mag frameTs batch =
      ⟨⟨false, 0⟩,
       { st with callCount := st.callCount + 1,
                 prevFrame := some ⟨st.callCount, frameTs⟩, prevVisionMag := 0 },
       none, 0, 0⟩ :=
  estimate_initial_eq p st verdict mag frameTs batch hdone hprev hv

/-- Witness for C3 at the freshly constructed aligner. -/
theorem claim_C3_witness :
    estimateTimeAlignment c2Params (initState c2Params) TrackingStatus.VALID 0 5
        [⟨1, 1⟩] =
      ⟨⟨false, 0⟩,
       { initState c2Params with
           callCount := (initState c2Params).callCount + 1,
           prevFrame := some ⟨(initState c2Params).callCount, 5⟩, prevVisionMag := 0 },
       none, 0, 0⟩ :=
  claim_C3 c2Params (initState c2Params) TrackingStatus.VALID 0 5 [⟨1, 1⟩]
    (by decide) (by decide) (by decide)

/-- C4: whenever both ring buffers are full after ingestion but the sample
variance of the inertial buffer is below `(3σ)²` with
`σ = gyro_noise_density/√nominal_sampling_time_s`, the call returns
`{valid=false, shift=0}`; in particular a zero-variance inertial buffer with
positive `gyro_noise_density` yields `valid=false` regardless of the vision
buffer's content (here even without the fullness assumption). -/
theorem claim_C4 (p : ImuParams) (st : AlignerState) (prev : FrameRef)
    (mag : Q) (frameTs : ℤ) (batch : List ImuSample)
    (hdone : st.done = false) (hprev : st.prevFrame = some prev) (hb : batch ≠ []) :
    (((ingestBatch p st mag prev.ts frameTs batch).1.full &&
        (ingestBatch p st mag prev.ts frameTs batch).2.1.full) = true →
     sampleVariance (ingestBatch p st mag prev.ts frameTs batch).1.values_copy <
       varianceThreshold p →
     (estimateTimeAlignment p st TrackingStatus.VALID mag frameTs batch).result =
       ⟨false, 0⟩) ∧
    (sampleVariance (ingestBatch p st mag prev.ts frameTs batch).1.values_copy = 0 →
     Q.isPos p.gyro_noise_density → Q.isPos p.nominal_sampling_time_s →
     (estimateTimeAlignment p st TrackingStatus.VALID mag frameTs batch).result =
       ⟨false, 0⟩) := by
  rw [estimate_processing_eq p st prev TrackingStatus.VALID mag frameTs batch hdone hprev
      (by decide) (by decide) hb]
  simp only []
  constructor
  · intro hfull hvar
    simp [hfull, hvar]
  · intro hvar hg hs
    by_cases hfull : ((ingestBatch p st mag prev.ts frameTs batch).1.full &&
        (ingestBatch p st mag prev.ts frameTs batch).2.1.full) = true
    · simp [hfull, hvar, varianceThreshold_pos hg hs]
    · simp [hfull]

/-- The configuration of `temporalCalibration.testLowVariance`: frame rate,
window 3, `gyro_noise_density = 1`. -/
def lowVarParams : ImuParams := ⟨1, false, 3, Q.mk' 1 1000000000⟩

/-- The aligner state after the first three calls of the low-variance
scenario. -/
def lowVarState : AlignerState :=
  runFinalState lowVarParams (initState lowVarParams)
    [(TrackingStatus.VALID, 0), (TrackingStatus.VALID, 0), (TrackingStatus.VALID, 0)]
    [⟨0, [⟨0, 0⟩]⟩, ⟨1, [⟨1, 0⟩]⟩, ⟨2, [⟨2, 0⟩]⟩]

/-- Witness for C4 at the fourth call of the low-variance scenario, where the
window fills with an all-zero inertial signal. -/
theorem claim_C4_witness :
    (estimateTimeAlignment lowVarParams lowVarState TrackingStatus.VALID 0 3
        [⟨3, 0⟩]).result = ⟨false, 0⟩ ∧
    (estimateTimeAlignment lowVarParams lowVarState TrackingStatus.VALID 0 3
        [⟨3, 0⟩]).result = ⟨false, 0⟩ :=
  ⟨(claim_C4 lowVarParams lowVarState ⟨2, 2⟩ 0 3 [⟨3, 0⟩] (by decide) (by decide)
      (by decide)).1 (by decide) (by decide),
   (claim_C4 lowVarParams lowVarState ⟨2, 2⟩ 0 3 [⟨3, 0⟩] (by decide) (by decide)
      (by decide)).2 (by decide) (by decide) (by decide)⟩

/-- C5 (amended): a call with tracker verdict INVALID and a stored previous
frame returns `{valid=true, shift=0}`, leaves both ring buffers unchanged and
does not enter the DONE state, but it does not drop the stored previous
frame: the slot is updated to the current frame, so the next frame is not
treated as a new initial frame. -/
theorem claim_C5_amended (p : ImuParams) (st : AlignerState) (prev : FrameRef)
    (mag : Q) (frameTs : ℤ) (batch : List ImuSample)
    (hdone : st.done = false) (hprev : st.prevFrame = some prev) :
    estimateTimeAlignment p st TrackingStatus.INVALID mag frameTs batch =
      ⟨⟨true, 0⟩,
       { st with callCount := st.callCount + 1,
                 prevFrame := some ⟨st.callCount, frameTs⟩, prevVisionMag := 0 },
       some (prev, ⟨st.callCount, frameTs⟩), 0, 0⟩ :=
  estimate_invalid_eq p st prev mag frameTs batch hdone hprev

/-- The aligner state after one bootstrap call: the frame supplied at call 0
with timestamp 1 is stored as the previous frame. -/
def c5State : AlignerState :=
  (estimateTimeAlignment c2Params (initState c2Params) TrackingStatus.VALID 0 1 []).state

/-- Witness for C5 (amended) at a concrete bootstrapped state. -/
theorem claim_C5_witness :
    estimateTimeAlignment c2Params c5State TrackingStatus.INVALID 0 2 [⟨2, 1⟩] =
      ⟨⟨true, 0⟩,
       { c5State with callCount := c5State.callCount + 1,
                      prevFrame := some ⟨c5State.callCount, 2⟩, prevVisionMag := 0 },
       some (⟨0, 1⟩, ⟨c5State.callCount, 2⟩), 0, 0⟩ :=
  claim_C5_amended c2Params c5State ⟨0, 1⟩ 0 2 [⟨2, 1⟩] (by decide) (by decide)

/-- Counterexample to C5 as stated: after an INVALID call on a state with a
stored previous frame, a previous frame is still stored (the current frame),
so the stored frame was not dropped and the next call will query the tracker
rather than re-bootstrap — as `testBadRansacStatus` requires via its
`Times(2)` mock expectation. -/
theorem claim_C5_counterexample :
    c5State.done = false ∧ c5State.prevFrame = some ⟨0, 1⟩ ∧
    (estimateTimeAlignment c2Params c5State TrackingStatus.INVALID 0 2 []).state.prevFrame =
      some ⟨1, 2⟩ :=
  ⟨by decide, by decide, by decide⟩

/-- C6 (amended): every call with tracker verdict DISABLED reaching a
non-DONE aligner returns `{valid=true, shift=0}` and transitions to the
terminal DONE state, even on the first invocation with no stored previous
frame. Once DONE, the aligner returns the already-emitted shift regardless of
the verdict, so the claim as stated fails after a nonzero shift has been
emitted. -/
theorem claim_C6_amended (p : ImuParams) (st : AlignerState)
    (mag : Q) (frameTs : ℤ) (batch : List ImuSample) (hdone : st.done = false) :
    estimateTimeAlignment p st TrackingStatus.DISABLED mag frameTs batch =
      ⟨⟨true, 0⟩,
       { st with callCount := st.callCount + 1, done := true, doneShift := 0,
                 prevFrame := none },
       st.prevFrame.map (fun fr => (fr, ⟨st.callCount, frameTs⟩)), 0, 0⟩ :=
  estimate_disabled_eq p st mag frameTs batch hdone

/-- Witness for C6 (amended) on the first invocation of a fresh aligner. -/
theorem claim_C6_witness :
    estimateTimeAlignment c2Params (initState c2Params) TrackingStatus.DISABLED 0 7 [] =
      ⟨⟨true, 0⟩,
       { initState c2Params with
           callCount := (initState c2Params).callCount + 1, done := true, doneShift := 0,
           prevFrame := none },
       (initState c2Params).prevFrame.map
         (fun fr => (fr, ⟨(initState c2Params).callCount, 7⟩)), 0, 0⟩ :=
  claim_C6_amended c2Params (initState c2Params) 0 7 [] (by decide)

/-- Frame-rate parameters with window 2 used to reach a DONE state with a
nonzero shift. -/
def c6Params : ImuParams := ⟨0, false, 2, Q.mk' 1 1000000000⟩

/-- A DONE state holding the nonzero emitted shift 1e-8 s, reached by a
three-call frame-rate run whose correlation argmax is lag 1. -/
def c6DoneState : AlignerState :=
  runFinalState c6Params (initState c6Params)
    [(TrackingStatus.VALID, 1), (TrackingStatus.VALID, 5)]
    [⟨0, [⟨0, 0⟩]⟩, ⟨10, [⟨0, 0⟩, ⟨10, 5⟩]⟩, ⟨20, [⟨10, 0⟩, ⟨20, 0⟩]⟩]

/-- Counterexample to C6 as stated: a DISABLED call on a DONE aligner with a
nonzero emitted shift returns that shift, not 0. -/
theorem claim_C6_counterexample :
    c6DoneState.done = true ∧
    (estimateTimeAlignment c6Params c6DoneState TrackingStatus.DISABLED 0 30
        []).result.valid = true ∧
    (estimateTimeAlignment c6Params c6DoneState TrackingStatus.DISABLED 0 30
        []).result.imu_time_shift ≠ 0 :=
  ⟨by decide, by decide, by decide⟩

/-- C7: in inertial-rate mode, a call with a stored previous frame, a VALID
verdict and a zero-length inertial batch returns `{valid=true, shift=0}`
without pushing anything into either buffer and without terminating; and the
concrete three-call empty-batch sequence of the spec yields
`{false,0}, {true,0}, {true,0}`. -/
theorem claim_C7 :
    (∀ (p : ImuParams) (st : AlignerState) (prev : FrameRef) (mag : Q) (frameTs : ℤ),
      p.do_imu_rate_time_alignment = true → st.done = false →
      st.prevFrame = some prev →
      estimateTimeAlignment p st TrackingStatus.VALID mag frameTs [] =
        ⟨⟨true, 0⟩,
         { st with callCount := st.callCount + 1,
                   prevFrame := some ⟨st.callCount, frameTs⟩, prevVisionMag := mag },
         some (prev, ⟨st.callCount, frameTs⟩), 0, 0⟩) ∧
    runResults c2Params (initState c2Params)
      [(TrackingStatus.VALID, 0), (TrackingStatus.VALID, 0), (TrackingStatus.VALID, 0)]
      [⟨1, []⟩, ⟨1, []⟩, ⟨1, []⟩] =
      [⟨false, 0⟩, ⟨true, 0⟩, ⟨true, 0⟩] := by
  constructor
  · intro p st prev mag frameTs _ hdone hprev
    have h := estimate_emptybatch_eq p st prev TrackingStatus.VALID mag frameTs hdone hprev
      (by decide) (by decide)
    simpa using h
  · decide

/-- Witness for the universally quantified part of C7 at a concrete
bootstrapped state. -/
theorem claim_C7_witness :
    estimateTimeAlignment c2Params c5State TrackingStatus.VALID 0 2 [] =
      ⟨⟨true, 0⟩,
       { c5State with callCount := c5State.callCount + 1,
                      prevFrame := some ⟨c5State.callCount, 2⟩, prevVisionMag := 0 },
       some (⟨0, 1⟩, ⟨c5State.callCount, 2⟩), 0, 0⟩ :=
  claim_C7.1 c2Params c5State ⟨0, 1⟩ 0 2 (by decide) (by decide) (by decide)

/-- C8 (amended): per processing call, inertial-rate mode inserts exactly
`N_imu - 1` inertial values when the inertial buffer is nonempty but all
`N_imu` values of the first batch into an empty buffer (the extra start
measurement `testWellFormedNoDelay` compensates for by enlarging the window
by one); frame-rate mode inserts exactly one (zero when the batch is empty);
and one matched vision value is pushed per inertial value. -/
theorem claim_C8_amended (p : ImuParams) (st : AlignerState) (prev : FrameRef)
    (verdict : TrackingStatus) (mag : Q) (frameTs : ℤ) (batch : List ImuSample)
    (hdone : st.done = false) (hprev : st.prevFrame = some prev)
    (hv : verdict ≠ TrackingStatus.DISABLED) (hv2 : verdict ≠ TrackingStatus.INVALID) :
    ((estimateTimeAlignment p st verdict mag frameTs batch).pushedImu =
      if batch.isEmpty then 0
      else if p.do_imu_rate_time_alignment then
        (if st.imuBuffer.data.isEmpty then batch.length else batch.length - 1)
      else 1) ∧
    (estimateTimeAlignment p st verdict mag frameTs batch).pushedVision =
      (estimateTimeAlignment p st verdict mag frameTs batch).pushedImu := by
  cases hb : batch with
  | nil =>
    rw [estimate_emptybatch_eq p st prev verdict mag frameTs hdone hprev hv hv2]
    simp
  | cons s rest =>
    rw [estimate_processing_eq p st prev verdict mag frameTs (s :: rest) hdone hprev hv hv2
        (by simp)]
    cases hr : p.do_imu_rate_time_alignment with
    | false => simp [ingestBatch, hr]
    | true =>
      cases hie : st.imuBuffer.data.isEmpty with
      | true => simp [ingestBatch, hr, hie]
      | false => simp [ingestBatch, hr, hie, List.length_drop]

/-- A bootstrapped state whose inertial buffer is still empty. -/
def c8State : AlignerState :=
  (estimateTimeAlignment c2Params (initState c2Params) TrackingStatus.VALID 0 0
    [⟨0, 0⟩]).state

/-- Counterexample to C8 as stated: the first processed batch (empty inertial
buffer) of 2 samples inserts 2 inertial values, not `max(0, N_imu - 1) = 1`. -/
theorem claim_C8_counterexample :
    c8State.imuBuffer.data = [] ∧
    (estimateTimeAlignment c2Params c8State TrackingStatus.VALID (Q.mk' 1 10) 2
        [⟨1, 1⟩, ⟨2, 2⟩]).pushedImu = 2 ∧
    (2 : ℕ) ≠ max 0 (2 - 1) :=
  ⟨by decide, by decide, by decide⟩

/-- Witness for C8 (amended) at the first processed batch of a concrete
run. -/
theorem claim_C8_witness :
    (estimateTimeAlignment c2Params c8State TrackingStatus.VALID (Q.mk' 1 10) 2
        [⟨1, 1⟩, ⟨2, 2⟩]).pushedImu =
      (if ([⟨1, 1⟩, ⟨2, 2⟩] : List ImuSample).isEmpty then 0
       else if c2Params.do_imu_rate_time_alignment then
         (if c8State.imuBuffer.data.isEmpty then ([⟨1, 1⟩, ⟨2, 2⟩] : List ImuSample).length
          else ([⟨1, 1⟩, ⟨2, 2⟩] : List ImuSample).length - 1)
       else 1) ∧
    (estimateTimeAlignment c2Params c8State TrackingStatus.VALID (Q.mk' 1 10) 2
        [⟨1, 1⟩, ⟨2, 2⟩]).pushedVision =
      (estimateTimeAlignment c2Params c8State TrackingStatus.VALID (Q.mk' 1 10) 2
        [⟨1, 1⟩, ⟨2, 2⟩]).pushedImu :=
  claim_C8_amended c2Params c8State ⟨0, 0⟩ TrackingStatus.VALID (Q.mk' 1 10) 2
    [⟨1, 1⟩, ⟨2, 2⟩] (by decide) (by decide) (by decide) (by decide)

/-- C10: in every run from a fresh aligner, each call queries the tracker's
relative-rotation operation exactly once when its pre-call state stores a
previous frame — whatever the batch, including an empty one — and never
otherwise; the two frames passed are both present and distinct (the stored
frame was supplied at a strictly earlier call). -/
theorem claim_C10 (p : ImuParams) (script : List (TrackingStatus × Q))
    (calls : List CallInput) :
    ∀ pr ∈ runTrace p (initState p) script calls,
      (pr.2.query.isSome ↔ pr.1.prevFrame.isSome) ∧
      (∀ a c, pr.2.query = some (a, c) →
        pr.1.prevFrame = some a ∧ a.idx < c.idx ∧ a ≠ c) :=
  runTrace_query_spec p calls script (initState p) (stateWF_init p)

/-- A two-call trace exercising both the no-query bootstrap call and a
queried call. -/
def c10Trace : List (AlignerState × StepOut) :=
  runTrace c2Params (initState c2Params) [(TrackingStatus.VALID, 0)] [⟨1, []⟩, ⟨2, []⟩]

/-- The second element of that trace: the queried call. -/
def c10Pr : AlignerState × StepOut :=
  c10Trace.getD 1 (initState c2Params, ⟨⟨false, 0⟩, initState c2Params, none, 0, 0⟩)

/-- Witness for C10 at the queried call of the concrete trace. -/
theorem claim_C10_witness :
    ((c10Pr.2.query.isSome ↔ c10Pr.1.prevFrame.isSome) ∧
     (c10Pr.1.prevFrame = some ⟨0, 1⟩ ∧ (0 : ℕ) < 1 ∧
       (⟨0, 1⟩ : FrameRef) ≠ ⟨1, 2⟩)) :=
  ⟨(claim_C10 c2Params [(TrackingStatus.VALID, 0)] [⟨1, []⟩, ⟨2, []⟩] c10Pr (by decide)).1,
   (claim_C10 c2Params [(TrackingStatus.VALID, 0)] [⟨1, []⟩, ⟨2, []⟩] c10Pr
     (by decide)).2 ⟨0, 1⟩ ⟨1, 2⟩ (by decide)⟩

/-- The configuration of `temporalCalibration.testEnoughVariance`: frame
rate, window 3, `gyro_noise_density = 0`. -/
def c9Params : ImuParams := ⟨0, false, 3, Q.mk' 1 1000000000⟩

/-- C9: with window 3, zero noise density (so the variance gate threshold is
zero and strict comparison lets a constant signal through), and VALID
verdicts with identity rotations, the first three calls return
`{false, 0}` and the fourth returns `valid=true` with shift 0, which
satisfies `|s| ≤ (N-1)·period` for `N = 3` and period 1e-9 s. -/
theorem claim_C9 :
    runResults c9Params (initState c9Params)
      [(TrackingStatus.VALID, 0), (TrackingStatus.VALID, 0), (TrackingStatus.VALID, 0)]
      [⟨0, [⟨0, 0⟩]⟩, ⟨1, [⟨1, 0⟩]⟩, ⟨2, [⟨2, 0⟩]⟩, ⟨3, [⟨3, 0⟩]⟩] =
      [⟨false, 0⟩, ⟨false, 0⟩, ⟨false, 0⟩, ⟨true, 0⟩] ∧
    Q.abs 0 ≤ Q.ofNat (3 - 1) * Q.mk' 1 1000000000 :=
  ⟨by decide, by decide⟩

/-- C1: the well-formed ground-truth-delay scenario (triangular profile over
10 frames, 5 inertial samples per frame, nominal period 1 ns, zero noise
density, inertial stream shifted by +7 or -8 samples). Every call before the
window fills returns `{false, 0}` and the final call returns `valid=true`
with shift `(delay - sgn(delay))·1e-9 s` in inertial-rate mode
(`6e-9` and `-7e-9`) and `round(delay/5)·5·1e-9 s` in frame-rate mode
(`5e-9` and `-10e-9`), matching `expected_delay` of `makeTestData`. -/
theorem claim_C1 :
    (scenarioResults 5 true 7 0 =
       List.replicate 10 ⟨false, 0⟩ ++ [⟨true, Q.mk' 6 1000000000⟩] ∧
     (makeTestData 10 5 (Q.mk' 1 10) true 7).expected_delay = Q.mk' 6 1000000000) ∧
    (scenarioResults 5 true (-8) 0 =
       List.replicate 10 ⟨false, 0⟩ ++ [⟨true, Q.mk' (-7) 1000000000⟩] ∧
     (makeTestData 10 5 (Q.mk' 1 10) true (-8)).expected_delay =
       Q.mk' (-7) 1000000000) ∧
    (scenarioResults 5 false 7 0 =
       List.replicate 10 ⟨false, 0⟩ ++ [⟨true, Q.mk' 5 1000000000⟩] ∧
     (makeTestData 10 5 (Q.mk' 1 10) false 7).expected_delay = Q.mk' 5 1000000000) ∧
    (scenarioResults 5 false (-8) 0 =
       List.replicate 10 ⟨false, 0⟩ ++ [⟨true, Q.mk' (-10) 1000000000⟩] ∧
     (makeTestData 10 5 (Q.mk' 1 10) false (-8)).expected_delay =
       Q.mk' (-10) 1000000000) :=
  ⟨⟨by decide, by decide⟩, ⟨by decide, by decide⟩,
   ⟨by decide, by decide⟩, ⟨by decide, by decide⟩⟩

end TemporalCalibration
